import Mathlib

/-!
Shallow embedding of the prismswap routing / asset-abstraction core:
`src/contracts/prismswap_router/src/operations.rs` and
`src/packages/prismswap/src/asset.rs`.

Machine integers: all amounts are `Uint128` in the source; the only
arithmetic performed on them is `checked_sub`, which fails on underflow and
never wraps, so amounts are modelled as `Nat` with an explicit checked
subtraction returning `Except`.

Strings: Rust iterates over `chars()`; we model the character-level string
operations (`chars().take(n)`, `to_uppercase`, `to_lowercase`) explicitly on
the character list of a Lean `String` (ASCII case mapping, which covers every
string appearing in this development).

External collaborators (ledger querier, host address validator, config
store) are modelled as records of total functions passed in as parameters,
exactly as the spec lists them in its external-interface section; their
responses are universally quantified in the theorems.

Message serialization: `to_binary` produces an opaque serde-JSON blob in the
source; we model the blob as an inductive `Binary` whose constructors carry
the serialized payloads field-for-field, with decoding as the partial
inverse.
-/

namespace PrismSwap

/-- Models Rust `s.chars().take(n).collect::<String>()`. -/
def takeChars (n : Nat) (s : String) : String :=
  (s.toList.take n).asString

/-- Models Rust `str::to_uppercase` (ASCII case mapping). -/
def uppercase (s : String) : String :=
  (s.toList.map Char.toUpper).asString

/-- Models Rust `str::to_lowercase` (ASCII case mapping). -/
def lowercase (s : String) : String :=
  (s.toList.map Char.toLower).asString

/-- `cosmwasm_std::Decimal`: fixed-point number carried opaquely through this
core (it is only ever stored and forwarded, never computed with), modelled by
its atomic representation. -/
structure Decimal where
  atomics : Nat
deriving DecidableEq, Repr

/-- `cw_asset::AssetInfo`: native-ledger denomination or contract-token
address (`AssetInfo::Native` / `AssetInfo::Cw20`). -/
inductive AssetInfo where
  | native (denom : String)
  | cw20 (contractAddr : String)
deriving DecidableEq, Repr

/-- `cw_asset::Asset`: an amount paired with an `AssetInfo`. -/
structure Asset where
  info : AssetInfo
  amount : Nat
deriving DecidableEq, Repr

/-- `cosmwasm_std::Coin`. -/
structure Coin where
  denom : String
  amount : Nat
deriving DecidableEq, Repr

/-- `prismswap::asset::PairInfo`. -/
structure PairInfo where
  assetInfos : AssetInfo × AssetInfo
  contractAddr : String
  liquidityToken : String
deriving DecidableEq, Repr

/-- `prismswap::router::SwapOperation`. -/
inductive SwapOperation where
  | nativeSwap (offerDenom askDenom : String)
  | prismSwap (offerAssetInfo askAssetInfo : AssetInfo)
deriving DecidableEq, Repr

/-- `cosmwasm_std::StdError`, restricted to the variants this core produces:
`generic_err` and the overflow error raised by `Uint128::checked_sub` (the
spec's ArithmeticUnderflow). -/
inductive StdError where
  | genericErr (msg : String)
  | overflow
deriving DecidableEq, Repr

/-- The read-only querier collaborator: `query_balance`,
`query_token_balance`, `query_pair_info`, `query_token_symbol`, and the
treasury transfer-tax computation used by `Asset::compute_tax`
(tax as a function of denomination and amount). -/
structure Querier where
  balance : String → String → Nat
  tokenBalance : String → String → Nat
  pairInfo : String → AssetInfo → AssetInfo → PairInfo
  tokenSymbol : String → String
  tax : String → Nat → Nat

/-- The host's address-format validator (`Api::addr_validate`). -/
structure Api where
  addrValidate : String → Except StdError String

/-- `cosmwasm_std::Env`, restricted to the field this core reads. -/
structure Env where
  contractAddress : String
deriving DecidableEq, Repr

/-- `cosmwasm_std::MessageInfo`. -/
structure MessageInfo where
  sender : String
  funds : List Coin
deriving DecidableEq, Repr

/-- Router `Config` (`state.rs`): the factory address. -/
structure Config where
  factory : String
deriving DecidableEq, Repr

/-- The result of `to_binary` on the messages this core serializes:
`PairExecuteMsg::Swap { offer_asset, belief_price, max_spread, to }` and
`Cw20ExecuteMsg::Send { contract, amount, msg }` (whose `msg` field is itself
a serialized blob). -/
inductive Binary where
  | pairSwap (offerAsset : Asset) (beliefPrice maxSpread : Option Decimal)
      (toAddr : Option String)
  | cw20Send (contract : String) (amount : Nat) (msg : Binary)
deriving DecidableEq, Repr

/-- `CosmosMsg<TerraMsgWrapper>`, restricted to the shapes this core emits:
`WasmMsg::Execute`, `create_swap_msg` and `create_swap_send_msg`. -/
inductive CosmosMsg where
  | wasmExecute (contractAddr : String) (funds : List Coin) (msg : Binary)
  | swap (offerCoin : Coin) (askDenom : String)
  | swapSend (toAddress : String) (offerCoin : Coin) (askDenom : String)
deriving DecidableEq, Repr

/-- `Uint128::checked_sub` followed by `?`: fails with the overflow
(underflow) error instead of wrapping. -/
def checkedSub (a b : Nat) : Except StdError Nat :=
  if b ≤ a then .ok (a - b) else .error .overflow

/-- `Asset::compute_tax` (from the `cw_asset` collaborator crate, per the
spec's asset-abstraction contract): the collaborator-computed transfer tax on
the asset's amount for a native asset, always zero for a contract token. -/
def Asset.computeTax (a : Asset) (q : Querier) : Nat :=
  match a.info with
  | .native denom => q.tax denom a.amount
  | .cw20 _ => 0

/-- `PrismSwapAssetInfo::is_native_token` (`asset.rs`). -/
def AssetInfo.isNativeToken : AssetInfo → Bool
  | .cw20 _ => false
  | .native _ => true

/-- `asset_into_swap_msg` (`operations.rs`): the router's message builder.
Native offer: deduct tax by checked subtraction, attach the reduced amount as
funds and put the reduced amount in the `Swap` payload. Cw20 offer: no tax, a
`Cw20ExecuteMsg::Send` envelope to the token contract with no funds. -/
def assetIntoSwapMsg (q : Querier) (pairContract : String) (offerAsset : Asset)
    (maxSpread : Option Decimal) (toAddr : Option String) :
    Except StdError CosmosMsg :=
  match offerAsset.info with
  | .native denom =>
      match checkedSub offerAsset.amount (offerAsset.computeTax q) with
      | .error e => .error e
      | .ok amount =>
          .ok (.wasmExecute pairContract [⟨denom, amount⟩]
            (.pairSwap ⟨offerAsset.info, amount⟩ none maxSpread toAddr))
  | .cw20 contractAddr =>
      .ok (.wasmExecute contractAddr []
        (.cw20Send pairContract offerAsset.amount
          (.pairSwap offerAsset none maxSpread toAddr)))

/-- `PrismSwapAsset::into_swap_msg` (`asset.rs`): the package-level builder.
Its native branch attaches the full amount (no tax deduction); its Cw20
branch matches the router builder's. -/
def intoSwapMsg (a : Asset) (pairContract : String) (maxSpread : Option Decimal)
    (toAddr : Option String) : Except StdError CosmosMsg :=
  match a.info with
  | .native denom =>
      .ok (.wasmExecute pairContract [⟨denom, a.amount⟩]
        (.pairSwap ⟨a.info, a.amount⟩ none maxSpread toAddr))
  | .cw20 contractAddr =>
      .ok (.wasmExecute contractAddr []
        (.cw20Send pairContract a.amount
          (.pairSwap a none maxSpread toAddr)))

/-- The error message used by `assert_sent_native_token_balance`. -/
def balanceMismatchMsg : String :=
  "Native token balance mismatch between the argument and the transferred"

/-- `PrismSwapAsset::assert_sent_native_token_balance` (`asset.rs`). -/
def assertSentNativeTokenBalance (a : Asset) (messageInfo : MessageInfo) :
    Except StdError Unit :=
  match a.info with
  | .native denom =>
      match messageInfo.funds.find? (fun x => x.denom == denom) with
      | some coin =>
          if a.amount = coin.amount then .ok ()
          else .error (.genericErr balanceMismatchMsg)
      | none =>
          if a.amount = 0 then .ok ()
          else .error (.genericErr balanceMismatchMsg)
  | _ => .ok ()

/-- `addr_validate_to_lower` (`asset.rs`). -/
def addrValidateToLower (api : Api) (addr : String) : Except StdError String :=
  if lowercase addr ≠ addr then
    .error (.genericErr ("Address " ++ addr ++ " should be lowercase"))
  else
    api.addrValidate addr

/-- `TOKEN_SYMBOL_MAX_LENGTH` (`asset.rs`). -/
def tokenSymbolMaxLength : Nat := 6

/-- `format_lp_token_name` (`asset.rs`). -/
def formatLpTokenName (assetInfos : AssetInfo × AssetInfo) (q : Querier) :
    Except StdError String :=
  let shortSymbol : AssetInfo → String := fun assetInfo =>
    match assetInfo with
    | .native denom => takeChars tokenSymbolMaxLength denom
    | .cw20 contractAddr =>
        takeChars tokenSymbolMaxLength (q.tokenSymbol contractAddr)
  .ok (uppercase
    (shortSymbol assetInfos.1 ++ "-" ++ shortSymbol assetInfos.2 ++ "-LP"))

/-- `execute_swap_operation` (`operations.rs`): the route-step executor. -/
def executeSwapOperation (q : Querier) (api : Api) (config : Config) (env : Env)
    (info : MessageInfo) (operation : SwapOperation) (toAddr : Option String) :
    Except StdError (List CosmosMsg) :=
  if env.contractAddress ≠ info.sender then
    .error (.genericErr "unauthorized")
  else
    match operation with
    | .nativeSwap offerDenom askDenom =>
        let amount := q.balance env.contractAddress offerDenom
        match toAddr with
        | some t =>
            let asset : Asset := ⟨.native offerDenom, amount⟩
            match checkedSub amount (asset.computeTax q) with
            | .error e => .error e
            | .ok amount => .ok [.swapSend t ⟨offerDenom, amount⟩ askDenom]
        | none =>
            .ok [.swap ⟨offerDenom, amount⟩ askDenom]
    | .prismSwap offerAssetInfo askAssetInfo =>
        let pairInfo := q.pairInfo config.factory offerAssetInfo askAssetInfo
        let amountRes : Except StdError Nat :=
          match offerAssetInfo with
          | .native denom => .ok (q.balance env.contractAddress denom)
          | .cw20 contractAddr =>
              match api.addrValidate contractAddr with
              | .error e => .error e
              | .ok validated => .ok (q.tokenBalance validated env.contractAddress)
        match amountRes with
        | .error e => .error e
        | .ok amount =>
            let offerAsset : Asset := ⟨offerAssetInfo, amount⟩
            match assetIntoSwapMsg q pairInfo.contractAddr offerAsset none toAddr with
            | .error e => .error e
            | .ok msg => .ok [msg]

/-- Success condition of `assert_sent_native_token_balance`, written from the
claim's wording: a native asset whose denomination appears among the attached
funds succeeds exactly when the declared amount equals the attached coin's
amount (the first coin of that denomination, as the source's `find` does); a
native asset whose denomination is absent from the attached funds succeeds
exactly when the declared amount is zero; a contract-token asset always
succeeds. -/
def assertFundsMatchOk (a : Asset) (messageInfo : MessageInfo) : Prop :=
  match a.info with
  | .native denom =>
      match messageInfo.funds.find? (fun x => x.denom == denom) with
      | some coin => a.amount = coin.amount
      | none => a.amount = 0
  | .cw20 _ => True

/-- Extracts the (belief_price, max_spread) pair of the `Swap` payload carried
by a serialized blob, looking through `Cw20ExecuteMsg::Send` envelopes. -/
def Binary.swapParams : Binary → Option Decimal × Option Decimal
  | .pairSwap _ beliefPrice maxSpread _ => (beliefPrice, maxSpread)
  | .cw20Send _ _ m => m.swapParams

/-- Extracts the (belief_price, max_spread) pair of the `Swap` payload of an
outbound message, when the message carries one. -/
def CosmosMsg.swapParams : CosmosMsg → Option (Option Decimal × Option Decimal)
  | .wasmExecute _ _ b => some b.swapParams
  | _ => none

/-- Decodes a `Cw20ExecuteMsg::Send` blob into its fields. -/
def Binary.decodeCw20Send : Binary → Option (String × Nat × Binary)
  | .cw20Send contract amount m => some (contract, amount, m)
  | _ => none

/-- Decodes a `PairExecuteMsg::Swap` blob into its fields. -/
def Binary.decodePairSwap :
    Binary → Option (Asset × Option Decimal × Option Decimal × Option String)
  | .pairSwap offerAsset beliefPrice maxSpread toAddr =>
      some (offerAsset, beliefPrice, maxSpread, toAddr)
  | _ => none

/-- Decodes a token-contract swap message: reads the outer
`Cw20ExecuteMsg::Send` envelope and then the inner `Swap` payload, returning
the envelope's destination and amount together with the payload fields. -/
def decodeSwapEnvelope (m : CosmosMsg) :
    Option (String × Nat × (Asset × Option Decimal × Option Decimal × Option String)) :=
  match m with
  | .wasmExecute _ _ b =>
      match b.decodeCw20Send with
      | some (contract, amount, inner) =>
          (inner.decodePairSwap).map (fun p => (contract, amount, p))
      | none => none
  | _ => none

/-- The text a half-symbol segment of the LP token name is drawn from, per
the claim's wording: the native denomination, or the queried token symbol. -/
def lpSymbolText (q : Querier) : AssetInfo → String
  | .native denom => denom
  | .cw20 contractAddr => q.tokenSymbol contractAddr

/-- Shared concrete pair-registry response used by witness instantiations. -/
def examplePair : PairInfo :=
  ⟨(AssetInfo.cw20 "token0000", AssetInfo.native "uusd"), "pair0000", "lp0000"⟩

/-- Shared concrete querier for witness instantiations: every balance is
1000000, the transfer tax is 1000, every token symbol is "xprism". -/
def exampleQuerier : Querier :=
  ⟨fun _ _ => 1000000, fun _ _ => 1000000, fun _ _ _ => examplePair,
   fun _ => "xprism", fun _ _ => 1000⟩

/-- A host validator that accepts every address unchanged. -/
def acceptApi : Api := ⟨fun a => .ok a⟩

/-- The one outbound message emitted by the concrete pool-swap execution used
in witness instantiations. -/
def examplePrismMsg : CosmosMsg :=
  .wasmExecute "token0000" []
    (.cw20Send "pair0000" 1000000
      (.pairSwap ⟨.cw20 "token0000", 1000000⟩ none none (some "addr0000")))

/-- Claim C1: for every caller address different from the executing
contract's own address, `execute_swap_operation` fails with the Unauthorized
error and emits no outbound messages, for every operation and every optional
recipient. -/
theorem execute_step_unauthorized (q : Querier) (api : Api) (config : Config)
    (env : Env) (info : MessageInfo) (operation : SwapOperation)
    (toAddr : Option String) (h : env.contractAddress ≠ info.sender) :
    executeSwapOperation q api config env info operation toAddr
      = .error (.genericErr "unauthorized") := by
  simp [executeSwapOperation, h]

/-- Witness for claim C1 at a concrete non-self caller. -/
theorem execute_step_unauthorized_witness :
    (Env.mk "router0000").contractAddress ≠ (MessageInfo.mk "mallory" []).sender ∧
    executeSwapOperation exampleQuerier acceptApi ⟨"factory0000"⟩ ⟨"router0000"⟩
        ⟨"mallory", []⟩ (.nativeSwap "uusd" "uluna") none
      = .error (.genericErr "unauthorized") :=
  ⟨by decide,
   execute_step_unauthorized exampleQuerier acceptApi ⟨"factory0000"⟩
     ⟨"router0000"⟩ ⟨"mallory", []⟩ (.nativeSwap "uusd" "uluna") none (by decide)⟩

/-- Claim C2: for a NativeSwap operation executed by the contract itself with
a final recipient present, with balance the queried on-contract balance of
the offer denomination and tax the collaborator-computed transfer tax on that
balance, the single emitted swap-and-send message carries amount
balance - tax, and the call fails with the arithmetic-underflow error exactly
when tax > balance. -/
theorem native_swap_send_tax (q : Querier) (api : Api) (config : Config)
    (selfAddr : String) (funds : List Coin) (d a r : String) :
    executeSwapOperation q api config ⟨selfAddr⟩ ⟨selfAddr, funds⟩
        (.nativeSwap d a) (some r)
      = if q.tax d (q.balance selfAddr d) ≤ q.balance selfAddr d
        then .ok [.swapSend r ⟨d, q.balance selfAddr d - q.tax d (q.balance selfAddr d)⟩ a]
        else .error .overflow := by
  by_cases h : q.tax d (q.balance selfAddr d) ≤ q.balance selfAddr d <;>
    simp [executeSwapOperation, checkedSub, Asset.computeTax, h]

/-- Claim C3: the router's message builder with a native offer asset deducts
the transfer tax by checked subtraction (failing with the underflow error
when the tax exceeds the amount) and builds a pool invocation whose attached
funds carry the reduced amount and whose Swap payload holds the same asset
info with the reduced amount, no belief price, the given max spread and the
given recipient — for every tax response. -/
theorem build_swap_message_native (q : Querier) (pool d : String) (amt : Nat)
    (ms : Option Decimal) (toAddr : Option String) :
    assetIntoSwapMsg q pool ⟨.native d, amt⟩ ms toAddr
      = if q.tax d amt ≤ amt
        then .ok (.wasmExecute pool [⟨d, amt - q.tax d amt⟩]
            (.pairSwap ⟨.native d, amt - q.tax d amt⟩ none ms toAddr))
        else .error .overflow := by
  by_cases h : q.tax d amt ≤ amt <;>
    simp [assetIntoSwapMsg, checkedSub, Asset.computeTax, h]

/-- Claim C4: a NativeSwap operation executed by the contract itself with no
final recipient swaps the entire queried on-contract balance in place: one
plain swap message (not swap-and-send) carrying the full balance, with no tax
deduction. -/
theorem native_swap_in_place (q : Querier) (api : Api) (config : Config)
    (selfAddr : String) (funds : List Coin) (d a : String) :
    executeSwapOperation q api config ⟨selfAddr⟩ ⟨selfAddr, funds⟩
        (.nativeSwap d a) none
      = .ok [.swap ⟨d, q.balance selfAddr d⟩ a] := by
  simp [executeSwapOperation]

/-- Claim C5: for a contract-token offer asset, both message builders emit a
token-contract send envelope addressed to the pool carrying the full offer
amount with no attached funds and no tax deduction, with an embedded Swap
payload holding the unchanged offer asset, no belief price, the given max
spread and the given recipient; and a PrismSwap step executed by the contract
itself with a contract-token offer emits exactly that envelope carrying the
full queried token balance. -/
theorem cw20_swap_full_amount (q : Querier) (api : Api) (config : Config)
    (selfAddr : String) (funds : List Coin) (ca pool : String) (amt : Nat)
    (ms : Option Decimal) (toAddr : Option String) (askInfo : AssetInfo)
    (v : String) (h : api.addrValidate ca = .ok v) :
    intoSwapMsg ⟨.cw20 ca, amt⟩ pool ms toAddr
        = .ok (.wasmExecute ca []
            (.cw20Send pool amt (.pairSwap ⟨.cw20 ca, amt⟩ none ms toAddr))) ∧
    assetIntoSwapMsg q pool ⟨.cw20 ca, amt⟩ ms toAddr
        = .ok (.wasmExecute ca []
            (.cw20Send pool amt (.pairSwap ⟨.cw20 ca, amt⟩ none ms toAddr))) ∧
    executeSwapOperation q api config ⟨selfAddr⟩ ⟨selfAddr, funds⟩
        (.prismSwap (.cw20 ca) askInfo) toAddr
      = .ok [.wasmExecute ca []
          (.cw20Send (q.pairInfo config.factory (.cw20 ca) askInfo).contractAddr
            (q.tokenBalance v selfAddr)
            (.pairSwap ⟨.cw20 ca, q.tokenBalance v selfAddr⟩ none none toAddr))] := by
  refine ⟨rfl, rfl, ?_⟩
  simp [executeSwapOperation, assetIntoSwapMsg, h]

/-- Witness for claim C5 at concrete inputs, with the host validator
accepting the token address. -/
theorem cw20_swap_full_amount_witness :
    acceptApi.addrValidate "token0000" = .ok "token0000" ∧
    executeSwapOperation exampleQuerier acceptApi ⟨"factory0000"⟩ ⟨"router0000"⟩
        ⟨"router0000", []⟩ (.prismSwap (.cw20 "token0000") (.native "uusd"))
        (some "addr0000")
      = .ok [.wasmExecute "token0000" []
          (.cw20Send "pair0000" 1000000
            (.pairSwap ⟨.cw20 "token0000", 1000000⟩ none none (some "addr0000")))] :=
  ⟨rfl,
   (cw20_swap_full_amount exampleQuerier acceptApi ⟨"factory0000"⟩ "router0000"
     [] "token0000" "pair0000" 1000000 none (some "addr0000") (.native "uusd")
     "token0000" rfl).2.2⟩

/-- Claim C6: `assert_sent_native_token_balance` succeeds exactly under the
claim's success condition (native with the denomination among the attached
funds: declared amount equals the attached coin amount; native with the
denomination absent: declared amount is zero; contract token: always), and
every failure is the balance-mismatch error. -/
theorem assert_funds_match_characterization (a : Asset) (info : MessageInfo) :
    (assertSentNativeTokenBalance a info = .ok () ↔ assertFundsMatchOk a info) ∧
    (assertSentNativeTokenBalance a info
        = .error (.genericErr balanceMismatchMsg) ↔ ¬ assertFundsMatchOk a info) := by
  obtain ⟨ai, amt⟩ := a
  cases ai with
  | cw20 c => simp [assertSentNativeTokenBalance, assertFundsMatchOk]
  | native d =>
    cases hfind : info.funds.find? (fun x => x.denom == d) with
    | some coin =>
      by_cases hamt : amt = coin.amount <;>
        simp [assertSentNativeTokenBalance, assertFundsMatchOk, hfind, hamt]
    | none =>
      by_cases hamt : amt = 0 <;>
        simp [assertSentNativeTokenBalance, assertFundsMatchOk, hfind, hamt]

/-- Claim C7: every message emitted by a PrismSwap step executed via
`execute_swap_operation` carries a Swap payload with max_spread unset, in
addition to belief_price being unset: the route-step executor passes no max
spread to the message builder. -/
theorem pool_swap_no_max_spread (q : Querier) (api : Api) (config : Config)
    (selfAddr : String) (funds : List Coin) (oi ai : AssetInfo)
    (toAddr : Option String) (msgs : List CosmosMsg)
    (h : executeSwapOperation q api config ⟨selfAddr⟩ ⟨selfAddr, funds⟩
        (.prismSwap oi ai) toAddr = .ok msgs)
    (m : CosmosMsg) (hm : m ∈ msgs) : m.swapParams = some (none, none) := by
  revert h
  cases oi with
  | native d =>
    by_cases htax : q.tax d (q.balance selfAddr d) ≤ q.balance selfAddr d
    · simp [executeSwapOperation, assetIntoSwapMsg, checkedSub,
        Asset.computeTax, htax]
      intro h
      subst h
      simp at hm
      subst hm
      rfl
    · simp [executeSwapOperation, assetIntoSwapMsg, checkedSub,
        Asset.computeTax, htax]
  | cw20 ca =>
    cases hv : api.addrValidate ca with
    | error e => simp [executeSwapOperation, hv]
    | ok v =>
      simp [executeSwapOperation, assetIntoSwapMsg, hv]
      intro h
      subst h
      simp at hm
      subst hm
      rfl

/-- Witness for claim C7 at a concrete successful pool-swap execution. -/
theorem pool_swap_no_max_spread_witness :
    executeSwapOperation exampleQuerier acceptApi ⟨"factory0000"⟩ ⟨"router0000"⟩
        ⟨"router0000", []⟩ (.prismSwap (.cw20 "token0000") (.native "uusd"))
        (some "addr0000") = .ok [examplePrismMsg] ∧
    examplePrismMsg ∈ [examplePrismMsg] ∧
    examplePrismMsg.swapParams = some (none, none) :=
  ⟨rfl, List.mem_singleton.mpr rfl,
   pool_swap_no_max_spread exampleQuerier acceptApi ⟨"factory0000"⟩ "router0000"
     [] (.cw20 "token0000") (.native "uusd") (some "addr0000") [examplePrismMsg]
     rfl examplePrismMsg (List.mem_singleton.mpr rfl)⟩

/-- Claim C8: building the swap message for a contract-token asset and then
decoding its outer token-contract send envelope recovers the pool address,
the full amount, and an inner Swap payload whose offer asset, max spread and
recipient equal the originals exactly, with belief price unset — for every
asset, pool, max spread and recipient. -/
theorem cw20_swap_roundtrip (ca pool : String) (amt : Nat) (ms : Option Decimal)
    (toAddr : Option String) :
    (intoSwapMsg ⟨.cw20 ca, amt⟩ pool ms toAddr).toOption.bind decodeSwapEnvelope
      = some (pool, amt, (⟨.cw20 ca, amt⟩, none, ms, toAddr)) := rfl

/-- Claim C9: `format_lp_token_name` returns the upper-cased concatenation
"{symbol0}-{symbol1}-LP" where each half-symbol segment is the first at most
6 characters of the native denomination or of the queried token symbol; in
particular a native "uluna" paired with a contract token whose queried symbol
is "xprism" yields "ULUNA-XPRISM-LP". -/
theorem lp_token_name_spec (q : Querier) (i0 i1 : AssetInfo) :
    formatLpTokenName (i0, i1) q
      = .ok (uppercase (takeChars 6 (lpSymbolText q i0) ++ "-"
          ++ takeChars 6 (lpSymbolText q i1) ++ "-LP")) ∧
    (takeChars 6 (lpSymbolText q i0)).toList.length ≤ 6 ∧
    (takeChars 6 (lpSymbolText q i1)).toList.length ≤ 6 ∧
    formatLpTokenName (.native "uluna", .cw20 "token1xyz") exampleQuerier
      = .ok "ULUNA-XPRISM-LP" := by
  refine ⟨?_, ?_, ?_, rfl⟩
  · cases i0 <;> cases i1 <;> rfl
  · simp [takeChars]
  · simp [takeChars]

/-- Claim C10: `addr_validate_to_lower` delegates to the host's address
validator and returns its result when the input equals its lower-cased form,
and otherwise fails with the lowercase-address error independently of the
host validator; "Terra1abc" fails and "terra1abc" succeeds under a host
validator that accepts it. -/
theorem validate_lowercase (api : Api) (addr : String) :
    (addrValidateToLower api addr
      = if lowercase addr = addr then api.addrValidate addr
        else .error (.genericErr ("Address " ++ addr ++ " should be lowercase"))) ∧
    addrValidateToLower acceptApi "Terra1abc"
      = .error (.genericErr "Address Terra1abc should be lowercase") ∧
    addrValidateToLower acceptApi "terra1abc" = .ok "terra1abc" := by
  refine ⟨?_, rfl, rfl⟩
  by_cases h : lowercase addr = addr <;> simp [addrValidateToLower, h]

end PrismSwap
